import Mathlib

/-!
Verification development for the `pf_level2.py` particle-filter node
(`greenteawarrior/mobile-robotics`).  The Python source is embedded
shallowly: particles, the occupancy field and the filter steps become
Lean definitions over an arbitrary linear ordered field `α`; the
transcendental routines the source calls (`math.cos`, `math.sin`,
`math.atan2`, `sqrt`, `scipy.stats.norm.pdf`) are supplied as an
explicit `MathOps` record, instantiated with the real functions where a
theorem needs their actual values.  `float('nan')` results are modelled
by `Option` (`none` = NaN), and Python's truncating `int()` and float
`%` are modelled exactly via the floor function.
-/

namespace PF

variable {α : Type} [LinearOrderedField α]

/-- The mathematical routines imported by the Python source
(`math.cos`, `math.sin`, `math.atan2`, `numpy.linalg.norm`'s square
root, `math.pi`, and `scipy.stats.norm.pdf(loc=0, scale=0.05, x)`). -/
structure MathOps (α : Type) where
  pi : α
  cos : α → α
  sin : α → α
  atan2 : α → α → α
  sqrt : α → α
  normPdf : α → α

/-- `ParticleFilter.TAU = math.pi * 2.0`. -/
def TAU (ops : MathOps α) : α := 2 * ops.pi

/-- `self.n_particles = 30`. -/
def n_particles : Nat := 30

/-- `self.d_thresh = 0.04`. -/
def d_thresh : α := 4 / 100

/-- `self.a_thresh = 0.04 * ParticleFilter.TAU`. -/
def a_thresh (ops : MathOps α) : α := (4 / 100) * TAU ops

/-- A particle: pose hypothesis `(x, y, theta)` plus weight `w`
(`Particle.__init__`, defaults `x=0, y=0, theta=0, w=1`). -/
structure Particle (α : Type) where
  x : α
  y : α
  theta : α
  w : α
deriving DecidableEq

/-- Python's `int()` applied to a float: truncation toward zero. -/
def pyInt [FloorRing α] (q : α) : ℤ := if q < 0 then -⌊-q⌋ else ⌊q⌋

/-- Python's float `%` for a positive modulus: `a - b * floor(a / b)`. -/
def pymod [FloorRing α] (a b : α) : α := a - b * (⌊a / b⌋ : ℤ)

/-- The metadata of the `nav_msgs/OccupancyGrid` used by the filter:
`info.width`, `info.height`, `info.resolution`, `info.origin.position`. -/
structure MapInfo (α : Type) where
  width : Nat
  height : Nat
  resolution : α
  originX : α
  originY : α

/-- `OccupancyField`: the grid metadata together with the precomputed
`closest_occupied` table (distance to the nearest occupied cell for each
row-major cell index, built once in `OccupancyField.__init__` from a
nearest-neighbor search over the occupied cells). -/
structure OccupancyField (α : Type) where
  info : MapInfo α
  closest_occupied : Nat → α

/-- `OccupancyField.get_closest_obstacle_distance(x, y)` (lines
159-174): truncate `(coord - origin) / resolution` to grid indices,
return `float('nan')` (modelled as `none`) when a bounds check fires,
otherwise look up the precomputed table at `x_coord + y_coord * width`.
The source compares with strict `>` against `width`/`height`, exactly as
embedded here. -/
def get_closest_obstacle_distance [FloorRing α] (F : OccupancyField α) (x y : α) :
    Option α :=
  let x_coord := pyInt ((x - F.info.originX) / F.info.resolution)
  let y_coord := pyInt ((y - F.info.originY) / F.info.resolution)
  if (F.info.width : ℤ) < x_coord ∨ x_coord < 0 then none
  else if (F.info.height : ℤ) < y_coord ∨ y_coord < 0 then none
  else
    let ind := x_coord + y_coord * (F.info.width : ℤ)
    if ((F.info.width : ℤ) * (F.info.height : ℤ) ≤ ind ∨ ind < 0) then none
    else some (F.closest_occupied ind.toNat)

/-- `ParticleFilter.normalize_particles` (lines 464-471): sum all the
weights, then divide every weight by that sum.  There is no branch: a
zero sum is divided by just the same (in Python that raises
`ZeroDivisionError` for plain floats or produces `nan` for numpy
floats; in this field model division by zero yields the junk value 0). -/
def normalize_particles (cloud : List (Particle α)) : List (Particle α) :=
  let s := (cloud.map (fun p => p.w)).sum
  cloud.map (fun p => { p with w := p.w / s })

/-- `ParticleFilter.update_robot_pose` (lines 253-272): normalize, then
take the plain weighted sums of `x`, `y` and `theta` as the mean pose.
Returns the pose triple together with the (normalized) cloud the method
leaves behind in `self.particle_cloud`. -/
def update_robot_pose (cloud : List (Particle α)) :
    (α × α × α) × List (Particle α) :=
  let c := normalize_particles cloud
  (((c.map (fun p => p.w * p.x)).sum,
    (c.map (fun p => p.w * p.y)).sum,
    (c.map (fun p => p.w * p.theta)).sum), c)

/-- Modelled from the spec: the circular mean of the headings (weighted
mean of the unit vectors at each `theta`, then `atan2`), the estimator
§4.6 of the specification prescribes for the heading average.  This is
the comparator for the claim about `update_robot_pose`; the source
itself computes the raw linear mean. -/
def circular_mean_spec (ops : MathOps α) (cloud : List (Particle α)) : α :=
  ops.atan2 ((cloud.map (fun p => p.w * ops.sin p.theta)).sum)
    ((cloud.map (fun p => p.w * ops.cos p.theta)).sum)

/-- `ParticleFilter.update_particles_with_odom` (lines 274-307).  When
`self.current_odom_xy_theta` is still empty the method just records the
new odometry and returns.  Otherwise it decomposes the odometry delta
into rotate-translate-rotate form (`r1`, `delta_distance`, `r2`) and
moves every particle, drawing per-particle noise.  The random draws are
supplied as streams indexed by the particle's position in the cloud:
`noiseR i` is the `np.random.normal(0, RADIAL_SIGMA)` sample,
`noiseM i` the `random_sample()` in `[0,1)` scaled below by `TAU / 2`,
and `noiseO i` the `np.random.normal(0, ORIENTATION_SIGMA)` sample.
Returns the new cloud together with the new `current_odom_xy_theta`. -/
def update_particles_with_odom (ops : MathOps α) (cloud : List (Particle α))
    (current_odom : Option (α × α × α)) (new_odom : α × α × α)
    (noiseR noiseM noiseO : Nat → α) :
    List (Particle α) × Option (α × α × α) :=
  match current_odom with
  | none => (cloud, some new_odom)
  | some old =>
    let dx := new_odom.1 - old.1
    let dy := new_odom.2.1 - old.2.1
    let dth := new_odom.2.2 - old.2.2
    let r1 := ops.atan2 dy dx - old.2.2
    let delta_distance := ops.sqrt (dx ^ 2 + dy ^ 2)
    let r2 := dth - r1
    (cloud.mapIdx (fun i p =>
      let delta_random_radius := noiseR i
      let delta_random_mean_angle := noiseM i * TAU ops / 2
      let delta_random_orient_angle := noiseO i
      let delta_random_x := delta_random_radius * ops.cos delta_random_mean_angle
      let delta_random_y := delta_random_radius * ops.sin delta_random_mean_angle
      let theta1 := p.theta + r1
      { x := p.x + ops.cos theta1 * delta_distance + delta_random_x
        y := p.y + ops.sin theta1 * delta_distance + delta_random_y
        theta := theta1 + r2 + delta_random_orient_angle
        w := p.w }), some new_odom)

/-- `ParticleFilter.filter_laser(ranges)` (lines 565-571): keep the
pairs `(i, ranges[i])` with `0.0 < ranges[i] < 3.5`, iterating `i` over
`range(len(ranges))` in order. -/
def filter_laser (ranges : List α) : List (Nat × α) :=
  (List.range ranges.length).filterMap (fun i =>
    match ranges.get? i with
    | some r => if 0 < r ∧ r < 7 / 2 then some (i, r) else none
    | none => none)

/-- One beam of `ParticleFilter.update_particles_with_laser` (lines
349-355): pick the `int(i * valid_len / num_pt_check)`-th valid
reading (Python 2 integer division), form
`angle = (index + 0.25 * TAU) % TAU`, project the endpoint from the
particle's pose, and query the occupancy field there.  `none` is the
`nan` sentinel of an out-of-map query. -/
def beam_query [FloorRing α] (ops : MathOps α) (F : OccupancyField α)
    (valid : List (Nat × α)) (p : Particle α) (i : Nat) : Option α :=
  let pair := valid.getD (i * valid.length / 25) (0, 0)
  let angle := pymod ((pair.1 : α) + (1 / 4) * TAU ops) (TAU ops)
  let ex := ops.cos (angle + p.theta) * pair.2 + p.x
  let ey := ops.sin (angle + p.theta) * pair.2 + p.y
  get_closest_obstacle_distance F ex ey

/-- One multiplicative step of the per-particle weight product
`density_product *= 1 + probability_density` (lines 359-364).  A `nan`
queried distance poisons the product (`norm.pdf(nan)` is `nan` and
multiplication propagates it), hence `none` absorbs. -/
def laser_step [FloorRing α] (ops : MathOps α) (F : OccupancyField α)
    (valid : List (Nat × α)) (p : Particle α) (acc : Option α) (i : Nat) :
    Option α :=
  match acc, beam_query ops F valid p i with
  | some prod, some d => some (prod * (1 + ops.normPdf d))
  | _, _ => none

/-- The weight `ParticleFilter.update_particles_with_laser` assigns to
one particle when at least `num_pt_check = 25` readings are valid: the
product of `(1 + density)` over the 25 selected beams, starting from
`density_product = 1`.  `none` models a `nan` weight. -/
def laser_particle_weight [FloorRing α] (ops : MathOps α)
    (F : OccupancyField α) (valid : List (Nat × α)) (p : Particle α) :
    Option α :=
  (List.range 25).foldl (laser_step ops F valid p) (some 1)

/-- `ParticleFilter.update_particles_with_laser(msg)` (lines 329-371):
filter the scan, and if at least 25 readings are valid overwrite each
particle's weight with its beam product; otherwise leave every particle
untouched.  `nanv` is the value standing in for a `nan` weight. -/
def update_particles_with_laser [FloorRing α] (ops : MathOps α)
    (F : OccupancyField α) (nanv : α) (cloud : List (Particle α))
    (ranges : List α) : List (Particle α) :=
  let valid := filter_laser ranges
  cloud.map (fun p =>
    if 25 ≤ valid.length then
      { p with w := (laser_particle_weight ops F valid p).getD nanv }
    else p)

/-- `ParticleFilter.resample_particles` (lines 316-327): normalize,
then draw `n_particles` times with replacement from the cloud
(`np.random.choice` with the weights as probabilities, then
`deepcopy`); the draw outcomes are supplied by `pick`, reduced modulo
the cloud size so every possible outcome of the random choice is
covered. -/
def resample_particles (cloud : List (Particle α)) (pick : Nat → Nat) :
    List (Particle α) :=
  let c := normalize_particles cloud
  if c.isEmpty then []
  else (List.range n_particles).map (fun i =>
    c.getD (pick i % c.length) { x := 0, y := 0, theta := 0, w := 0 })

/-- `ParticleFilter.initialize_particle_cloud` (lines 441-462).  The
method takes no pose argument: each particle's `x` and `y` are random
scatter around the map origin (sign-flipped magnitudes drawn from
`random_sample()`, supplied here as the stream `rand`), and `theta` is
the constant `0.34 * TAU`.  Afterwards the method normalizes and runs
`update_robot_pose` (which normalizes again); the cloud left in
`self.particle_cloud` and the resulting `robot_pose` are returned. -/
def initialize_particle_cloud (ops : MathOps α) (info : MapInfo α)
    (rand : Nat → α) : List (Particle α) × (α × α × α) :=
  let cloud := (List.range n_particles).map (fun i =>
    let x0 := rand (4 * i) * (info.width : α) * info.resolution * (5 / 100)
    let x := if 1 / 2 < rand (4 * i + 1) then -x0 else x0
    let y0 := rand (4 * i + 2) * (info.height : α) * info.resolution * (1 / 10)
    let y := if 1 / 2 < rand (4 * i + 3) then -y0 else y0
    { x := x, y := y, theta := (34 / 100) * TAU ops, w := 1 })
  let c1 := normalize_particles cloud
  let est := update_robot_pose c1
  (est.2, est.1)

/-- The movement gate of `ParticleFilter.scan_received` (lines
523-525): componentwise absolute differences of the odometry triple
against `d_thresh`, `d_thresh`, `a_thresh`. -/
def movement_gate (ops : MathOps α) (new_odom cur : α × α × α) : Bool :=
  decide (d_thresh < |new_odom.1 - cur.1|) ||
  decide (d_thresh < |new_odom.2.1 - cur.2.1|) ||
  decide (a_thresh ops < |new_odom.2.2 - cur.2.2|)

/-- The mutable state of the `ParticleFilter` node that
`scan_received` reads and writes: `self.particle_cloud`,
`self.robot_pose` (as an `(x, y, theta)` triple) and
`self.current_odom_xy_theta` (`none` for the initial empty list). -/
structure PFState (α : Type) where
  particle_cloud : List (Particle α)
  robot_pose : α × α × α
  current_odom : Option (α × α × α)
deriving DecidableEq

/-- `ParticleFilter.scan_received` (lines 481-547) after the transform
preconditions: if the cloud is empty, initialize it and record the
odometry baseline; else if the movement gate fires, run the full cycle
(odometry update, laser reweighting, resampling, pose estimation);
otherwise leave the state untouched (the method only re-publishes).
The `none` odometry case cannot occur after initialization and is
embedded as a no-op. -/
def scan_received [FloorRing α] (ops : MathOps α) (F : OccupancyField α)
    (nanv : α) (st : PFState α) (ranges : List α) (new_odom : α × α × α)
    (randI noiseR noiseM noiseO : Nat → α) (pick : Nat → Nat) : PFState α :=
  if st.particle_cloud.isEmpty then
    let init := initialize_particle_cloud ops F.info randI
    { particle_cloud := init.1, robot_pose := init.2,
      current_odom := some new_odom }
  else
    match st.current_odom with
    | none => st
    | some cur =>
      if movement_gate ops new_odom cur then
        let step1 := update_particles_with_odom ops st.particle_cloud
          (some cur) new_odom noiseR noiseM noiseO
        let cloud2 := update_particles_with_laser ops F nanv step1.1 ranges
        let cloud3 := resample_particles cloud2 pick
        let est := update_robot_pose cloud3
        { particle_cloud := est.2, robot_pose := est.1,
          current_odom := step1.2 }
      else st

/-- The `MathOps` record holding the actual real-valued functions the
Python source calls: `math.pi`, `math.cos`, `math.sin`, `math.atan2`
(as the argument of the complex number `x + y*I`), the square root,
and the Gaussian density with mean `0` and standard deviation
`0.05 = 1/20`. -/
noncomputable def realOps : MathOps ℝ where
  pi := Real.pi
  cos := Real.cos
  sin := Real.sin
  atan2 := fun y x => Complex.arg ((x : ℂ) + (y : ℂ) * Complex.I)
  sqrt := Real.sqrt
  normPdf := fun x =>
    Real.exp (-(x ^ 2) / (2 * (1 / 20) ^ 2)) / ((1 / 20) * Real.sqrt (2 * Real.pi))

/-- A rational-valued `MathOps` instance used to exercise the embedded
definitions on concrete computable inputs. -/
def qOps : MathOps ℚ where
  pi := 1
  cos := fun _ => 0
  sin := fun _ => 0
  atan2 := fun _ _ => 0
  sqrt := fun x => x
  normPdf := fun _ => 0

/-- Claim C1.  The boundary check of `get_closest_obstacle_distance`
uses strict `>` against `width`/`height`, so the one-past-end x index
`x_coord = width` slips through: on a 2-by-2 grid with resolution 1 and
origin `(0, 0)`, the query at world coordinate `(2, 0)` — whose
truncated x index is `2 = width`, outside `[0, width)` — returns the
precomputed distance of cell index 2 instead of the `nan` sentinel the
claim (and the function's own docstring) promises. -/
theorem query_distance_at_one_past_end_index :
    get_closest_obstacle_distance
        (⟨⟨2, 2, 1, 0, 0⟩, fun k => (k : ℚ)⟩ : OccupancyField ℚ) 2 0 = some 2
    ∧ pyInt (((2 : ℚ) - 0) / 1) = 2 := by
  constructor
  · norm_num [get_closest_obstacle_distance, pyInt]
    rfl
  · norm_num [pyInt]

/-- Claim C2.  `normalize_particles` has no branch for a degenerate
total: it divides every weight by the sum unconditionally.  On a cloud
of total weight zero the division by zero neither raises a
`DegenerateWeights`-style signal nor falls back to a uniform
distribution — here (division by zero yielding the junk value 0, where
Python produces `nan` for numpy floats or raises `ZeroDivisionError`
for plain floats) the weights come back unchanged at 0 and do not sum
to 1. -/
theorem normalize_zero_total_no_fallback :
    normalize_particles [(⟨1, 2, 3, 0⟩ : Particle ℚ), ⟨4, 5, 6, 0⟩]
        = [⟨1, 2, 3, 0⟩, ⟨4, 5, 6, 0⟩]
    ∧ ((normalize_particles [(⟨1, 2, 3, 0⟩ : Particle ℚ), ⟨4, 5, 6, 0⟩]).map
        (fun p => p.w)).sum ≠ 1
    ∧ normalize_particles [(⟨1, 2, 3, 0⟩ : Particle ℚ), ⟨4, 5, 6, 0⟩]
        ≠ [⟨1, 2, 3, 1 / 2⟩, ⟨4, 5, 6, 1 / 2⟩] := by
  norm_num [normalize_particles, Particle.mk.injEq]

/-- Claim C7.  For a non-empty cloud of non-negative weights with
strictly positive total, `normalize_particles` returns non-negative
weights that sum to exactly 1. -/
theorem normalize_weights_sum_one (cloud : List (Particle α))
    (_hne : cloud ≠ []) (hnn : ∀ p ∈ cloud, 0 ≤ p.w)
    (hpos : 0 < (cloud.map (fun p => p.w)).sum) :
    (∀ p ∈ normalize_particles cloud, 0 ≤ p.w) ∧
    ((normalize_particles cloud).map (fun p => p.w)).sum = 1 := by
  constructor
  · intro p hp
    simp only [normalize_particles, List.mem_map] at hp
    obtain ⟨q, hq, rfl⟩ := hp
    exact div_nonneg (hnn q hq) (le_of_lt hpos)
  · have h1 : ((normalize_particles cloud).map (fun p => p.w))
        = cloud.map (fun p => p.w * ((cloud.map (fun p => p.w)).sum)⁻¹) := by
      simp only [normalize_particles, List.map_map, Function.comp_def,
        div_eq_mul_inv]
    rw [h1, List.sum_map_mul_right, mul_inv_cancel₀ (ne_of_gt hpos)]

/-- Witness for the claim C7 theorem at a concrete two-particle cloud
with weights 1 and 3. -/
theorem normalize_weights_sum_one_witness :
    (([(⟨0, 0, 0, 1⟩ : Particle ℚ), ⟨0, 0, 0, 3⟩] : List (Particle ℚ)) ≠ [])
    ∧ (0 : ℚ) < (([(⟨0, 0, 0, 1⟩ : Particle ℚ), ⟨0, 0, 0, 3⟩].map
        (fun p => p.w)).sum)
    ∧ ((normalize_particles [(⟨0, 0, 0, 1⟩ : Particle ℚ), ⟨0, 0, 0, 3⟩]).map
        (fun p => p.w)).sum = 1 :=
  ⟨by simp, by norm_num,
    (normalize_weights_sum_one [⟨0, 0, 0, 1⟩, ⟨0, 0, 0, 3⟩] (by simp)
      (by
        simp only [List.mem_cons, List.not_mem_nil, or_false]
        rintro p (rfl | rfl) <;> norm_num)
      (by norm_num)).2⟩

/-- Claim C9.  After `resample_particles` the cloud holds exactly
`n_particles = 30` particles, and each of them is a copy of a particle
of the (normalized, as the method normalizes in place first) previous
generation; the source makes each copy with `deepcopy`, which is what
lets this embedding treat particles as plain values with no shared
ownership between generations. -/
theorem resample_count_and_copies (cloud : List (Particle α))
    (pick : Nat → Nat) (hne : cloud ≠ []) :
    (resample_particles cloud pick).length = n_particles ∧
    ∀ q ∈ resample_particles cloud pick, q ∈ normalize_particles cloud := by
  have hne' : normalize_particles cloud ≠ [] := by
    simp only [normalize_particles, ne_eq, List.map_eq_nil_iff]
    exact hne
  have hpos : 0 < (normalize_particles cloud).length :=
    List.length_pos.mpr hne'
  have hemp : (normalize_particles cloud).isEmpty = false := by
    rcases h : normalize_particles cloud with _ | ⟨a, t⟩
    · exact absurd h hne'
    · rfl
  constructor
  · simp [resample_particles, hemp]
  · intro q hq
    simp only [resample_particles, hemp, Bool.false_eq_true, if_false,
      List.mem_map, List.mem_range] at hq
    obtain ⟨i, _, rfl⟩ := hq
    rw [List.getD_eq_getElem _ _ (Nat.mod_lt _ hpos)]
    exact List.getElem_mem (Nat.mod_lt _ hpos)

/-- Witness for the claim C9 theorem: resampling a one-particle cloud
with any draw outcomes yields 30 copies of that particle. -/
theorem resample_count_and_copies_witness :
    (([(⟨5, 6, 7, 1⟩ : Particle ℚ)] : List (Particle ℚ)) ≠ [])
    ∧ (resample_particles [(⟨5, 6, 7, 1⟩ : Particle ℚ)] (fun i => i)).length
        = n_particles
    ∧ ∀ q ∈ resample_particles [(⟨5, 6, 7, 1⟩ : Particle ℚ)] (fun i => i),
        q ∈ normalize_particles [(⟨5, 6, 7, 1⟩ : Particle ℚ)] :=
  ⟨by simp,
    (resample_count_and_copies [⟨5, 6, 7, 1⟩] (fun i => i) (by simp)).1,
    (resample_count_and_copies [⟨5, 6, 7, 1⟩] (fun i => i) (by simp)).2⟩

/-- Claim C10.  `update_particles_with_laser` only ever writes the
weight field: the `(x, y, theta)` poses of the cloud are identical
before and after the sensor update, for every map, scan and `nan`
stand-in. -/
theorem laser_update_preserves_pose [FloorRing α] (ops : MathOps α)
    (F : OccupancyField α) (nanv : α) (cloud : List (Particle α))
    (ranges : List α) :
    (update_particles_with_laser ops F nanv cloud ranges).map
        (fun p => (p.x, p.y, p.theta))
      = cloud.map (fun p => (p.x, p.y, p.theta)) := by
  simp only [update_particles_with_laser, List.map_map, Function.comp_def]
  apply List.map_congr_left
  intro p _
  split <;> rfl

/-- Claim C6.  `initialize_particle_cloud` accepts no pose argument
(which is why `update_initial_pose`'s call
`self.initialize_particle_cloud(xy_theta)` raises a `TypeError` in
Python): whatever random draws occur and whatever map is loaded, every
particle of the freshly initialized cloud carries the fixed heading
`0.34 * TAU` — no externally supplied pose hint can determine the
center of the new cloud. -/
theorem initialize_heading_constant (ops : MathOps α) (info : MapInfo α)
    (rand : Nat → α) :
    ((initialize_particle_cloud ops info rand).1).map (fun p => p.theta)
      = List.replicate n_particles ((34 / 100) * TAU ops) := by
  simp [initialize_particle_cloud, update_robot_pose, normalize_particles,
    List.map_map, Function.comp_def]

/-- Claim C3, counterexample.  On the symmetric two-particle cloud with
headings `3` and `-3` (both close to the `±π` cut) and equal weights,
`update_robot_pose` returns heading `0` — the raw weighted linear mean —
while the circular mean of the same cloud is `π`.  The code therefore
does not average the heading via the circular mean. -/
theorem pose_heading_linear_mean_not_circular :
    (update_robot_pose [(⟨0, 0, 3, 1 / 2⟩ : Particle ℝ), ⟨0, 0, -3, 1 / 2⟩]).1.2.2
        = 0
    ∧ circular_mean_spec realOps
        [(⟨0, 0, 3, 1 / 2⟩ : Particle ℝ), ⟨0, 0, -3, 1 / 2⟩] = Real.pi
    ∧ (0 : ℝ) ≠ Real.pi := by
  have hcos3 : Real.cos 3 < 0 := by
    apply Real.cos_neg_of_pi_div_two_lt_of_lt
    · nlinarith [Real.pi_lt_d2]
    · nlinarith [Real.pi_gt_three]
  refine ⟨?_, ?_, Ne.symm Real.pi_ne_zero⟩
  · norm_num [update_robot_pose, normalize_particles]
  · have hS : ((List.map (fun p => p.w * realOps.sin p.theta)
        [(⟨0, 0, 3, 1 / 2⟩ : Particle ℝ), ⟨0, 0, -3, 1 / 2⟩]).sum) = 0 := by
      simp [realOps, Real.sin_neg]
    have hC : ((List.map (fun p => p.w * realOps.cos p.theta)
        [(⟨0, 0, 3, 1 / 2⟩ : Particle ℝ), ⟨0, 0, -3, 1 / 2⟩]).sum)
        = Real.cos 3 := by
      simp [realOps, Real.cos_neg]
      ring
    rw [circular_mean_spec, hS, hC]
    show Complex.arg ((Real.cos 3 : ℂ) + ((0 : ℝ) : ℂ) * Complex.I) = Real.pi
    rw [Complex.ofReal_zero, zero_mul, add_zero]
    exact Complex.arg_ofReal_of_neg hcos3

/-- Claim C3, amended.  `update_robot_pose` reduces an
already-normalized particle set to the plain weighted sums of `x`, `y`
and `theta`: the heading estimate is the raw weighted linear mean of
the `theta` values, not a circular mean. -/
theorem pose_estimate_weighted_linear_means (cloud : List (Particle α))
    (h1 : (cloud.map (fun p => p.w)).sum = 1) :
    (update_robot_pose cloud).1
      = ((cloud.map (fun p => p.w * p.x)).sum,
         (cloud.map (fun p => p.w * p.y)).sum,
         (cloud.map (fun p => p.w * p.theta)).sum) := by
  have hid : (fun p : Particle α => ({ p with w := p.w / 1 } : Particle α))
      = id := by
    funext p
    simp
  have hnorm : normalize_particles cloud = cloud := by
    simp only [normalize_particles, h1, hid, List.map_id]
  rw [update_robot_pose, hnorm]

/-- Witness for the amended claim C3 theorem at a concrete normalized
two-particle cloud. -/
theorem pose_estimate_weighted_linear_means_witness :
    (([(⟨1, 2, 3, 1 / 2⟩ : Particle ℚ), ⟨4, 5, 6, 1 / 2⟩].map
        (fun p => p.w)).sum = 1)
    ∧ (update_robot_pose [(⟨1, 2, 3, 1 / 2⟩ : Particle ℚ), ⟨4, 5, 6, 1 / 2⟩]).1
      = (([(⟨1, 2, 3, 1 / 2⟩ : Particle ℚ), ⟨4, 5, 6, 1 / 2⟩].map
            (fun p => p.w * p.x)).sum,
         ([(⟨1, 2, 3, 1 / 2⟩ : Particle ℚ), ⟨4, 5, 6, 1 / 2⟩].map
            (fun p => p.w * p.y)).sum,
         ([(⟨1, 2, 3, 1 / 2⟩ : Particle ℚ), ⟨4, 5, 6, 1 / 2⟩].map
            (fun p => p.w * p.theta)).sum) :=
  ⟨by norm_num,
    pose_estimate_weighted_linear_means [⟨1, 2, 3, 1 / 2⟩, ⟨4, 5, 6, 1 / 2⟩]
      (by norm_num)⟩

/-- A `mapIdx` whose function agrees with an index-free function is a
plain `map`. -/
theorem mapIdx_congr_to_map {β γ : Type} (f : Nat → β → γ) (g : β → γ)
    (h : ∀ i b, f i b = g b) : ∀ l : List β, l.mapIdx f = l.map g := by
  intro l
  induction l generalizing f with
  | nil => rfl
  | cons a t ih =>
    rw [List.mapIdx_cons, List.map_cons, h]
    exact congrArg _ (ih (fun i => f (i + 1)) (fun i b => h (i + 1) b))

/-- Claim C8.  With all noise draws equal to zero,
`update_particles_with_odom` applies exactly the
rotate-translate-rotate decomposition
`r1 = atan2(dy, dx) - theta_prev`, `t = sqrt(dx^2 + dy^2)`,
`r2 = dtheta - r1` to every particle
(`theta += r1; x += cos(theta)*t; y += sin(theta)*t; theta += r2`);
in particular the odometry step from `(0,0,0)` to `(1,0,0)` maps the
particle `(0,0,0)` to the pose `(1,0,0)` under the real trigonometric
functions. -/
theorem odom_rotate_translate_rotate :
    (∀ (β : Type) [_instβ : LinearOrderedField β] (ops : MathOps β)
        (cloud : List (Particle β)) (cur new_odom : β × β × β),
      update_particles_with_odom ops cloud (some cur) new_odom
          (fun _ => 0) (fun _ => 0) (fun _ => 0)
        = (cloud.map (fun p =>
            { x := p.x + ops.cos (p.theta +
                  (ops.atan2 (new_odom.2.1 - cur.2.1) (new_odom.1 - cur.1)
                    - cur.2.2)) *
                  ops.sqrt ((new_odom.1 - cur.1) ^ 2 +
                    (new_odom.2.1 - cur.2.1) ^ 2)
              y := p.y + ops.sin (p.theta +
                  (ops.atan2 (new_odom.2.1 - cur.2.1) (new_odom.1 - cur.1)
                    - cur.2.2)) *
                  ops.sqrt ((new_odom.1 - cur.1) ^ 2 +
                    (new_odom.2.1 - cur.2.1) ^ 2)
              theta := p.theta +
                  (ops.atan2 (new_odom.2.1 - cur.2.1) (new_odom.1 - cur.1)
                    - cur.2.2) +
                  ((new_odom.2.2 - cur.2.2) -
                    (ops.atan2 (new_odom.2.1 - cur.2.1) (new_odom.1 - cur.1)
                      - cur.2.2))
              w := p.w }), some new_odom))
    ∧ update_particles_with_odom realOps [(⟨0, 0, 0, 1⟩ : Particle ℝ)]
        (some (0, 0, 0)) (1, 0, 0) (fun _ => 0) (fun _ => 0) (fun _ => 0)
      = ([⟨1, 0, 0, 1⟩], some (1, 0, 0)) := by
  have h1 : ∀ (β : Type) [_instβ : LinearOrderedField β] (ops : MathOps β)
      (cloud : List (Particle β)) (cur new_odom : β × β × β),
      update_particles_with_odom ops cloud (some cur) new_odom
          (fun _ => 0) (fun _ => 0) (fun _ => 0)
        = (cloud.map (fun p =>
            { x := p.x + ops.cos (p.theta +
                  (ops.atan2 (new_odom.2.1 - cur.2.1) (new_odom.1 - cur.1)
                    - cur.2.2)) *
                  ops.sqrt ((new_odom.1 - cur.1) ^ 2 +
                    (new_odom.2.1 - cur.2.1) ^ 2)
              y := p.y + ops.sin (p.theta +
                  (ops.atan2 (new_odom.2.1 - cur.2.1) (new_odom.1 - cur.1)
                    - cur.2.2)) *
                  ops.sqrt ((new_odom.1 - cur.1) ^ 2 +
                    (new_odom.2.1 - cur.2.1) ^ 2)
              theta := p.theta +
                  (ops.atan2 (new_odom.2.1 - cur.2.1) (new_odom.1 - cur.1)
                    - cur.2.2) +
                  ((new_odom.2.2 - cur.2.2) -
                    (ops.atan2 (new_odom.2.1 - cur.2.1) (new_odom.1 - cur.1)
                      - cur.2.2))
              w := p.w }), some new_odom) := by
    intro β _instβ ops cloud cur new_odom
    simp only [update_particles_with_odom, Prod.mk.injEq, and_true]
    apply mapIdx_congr_to_map
    intro i p
    simp only [zero_mul, add_zero]
  refine ⟨h1, ?_⟩
  rw [h1 ℝ realOps [⟨0, 0, 0, 1⟩] (0, 0, 0) (1, 0, 0)]
  have hatan : realOps.atan2 ((0 : ℝ) - 0) ((1 : ℝ) - 0) = 0 := by
    simp [realOps, Complex.arg_one]
  have hsqrt : realOps.sqrt (((1 : ℝ) - 0) ^ 2 + ((0 : ℝ) - 0) ^ 2) = 1 := by
    norm_num [realOps, Real.sqrt_one]
  simp [hatan, hsqrt, realOps, Particle.mk.injEq]

/-- Claim C4, counterexample.  Between two scans the odometry moves by
`(0.03, 0.03, 0)`: the Euclidean linear displacement
`sqrt(0.03^2 + 0.03^2) = 0.0424...` exceeds `d_thresh = 0.04`, yet the
source's componentwise gate (`|dx| > 0.04 or |dy| > 0.04 or
|dtheta| > a_thresh`) stays false and `scan_received` runs no cycle,
leaving the particle cloud, pose estimate and odometry baseline
untouched. -/
theorem gate_misses_euclidean_displacement :
    movement_gate realOps ((3 / 100 : ℝ), 3 / 100, 0) (0, 0, 0) = false
    ∧ (d_thresh : ℝ)
        < Real.sqrt (((3 / 100 : ℝ) - 0) ^ 2 + ((3 / 100 : ℝ) - 0) ^ 2)
    ∧ scan_received realOps ⟨⟨2, 2, 1, 0, 0⟩, fun _ => 0⟩ 0
        ⟨[⟨0, 0, 0, 1⟩], (0, 0, 0), some (0, 0, 0)⟩ [] (3 / 100, 3 / 100, 0)
        (fun _ => 0) (fun _ => 0) (fun _ => 0) (fun _ => 0) (fun i => i)
      = ⟨[⟨0, 0, 0, 1⟩], (0, 0, 0), some (0, 0, 0)⟩ := by
  have h3 : |(3 / 100 : ℝ) - 0| = 3 / 100 := by
    rw [sub_zero, abs_of_pos]
    norm_num
  have h0 : |(0 : ℝ) - 0| = 0 := by norm_num
  have hgate : movement_gate realOps ((3 / 100 : ℝ), 3 / 100, 0) (0, 0, 0)
      = false := by
    simp only [movement_gate, h3, h0, d_thresh, a_thresh, TAU, realOps,
      Bool.or_eq_false_iff, decide_eq_false_iff_not, not_lt]
    refine ⟨⟨by norm_num, by norm_num⟩, by positivity⟩
  refine ⟨hgate, ?_, ?_⟩
  · rw [d_thresh, Real.lt_sqrt (by norm_num)]
    norm_num
  · simp only [scan_received, List.isEmpty_cons, Bool.false_eq_true, if_false,
      hgate]

/-- Claim C4, amended.  The update gate of `scan_received` is the
componentwise test `|dx| > d_thresh or |dy| > d_thresh or
|dtheta| > a_thresh` on the raw odometry differences (not the Euclidean
displacement, and with no angle wrapping); when the gate is false the
state (particle cloud, pose and baseline) is returned untouched, and
when it fires the full cycle runs and the new odometry baseline is
recorded. -/
theorem scan_gate_componentwise [FloorRing α] (ops : MathOps α)
    (F : OccupancyField α) (nanv : α) (st : PFState α) (ranges : List α)
    (new_odom cur : α × α × α) (randI noiseR noiseM noiseO : Nat → α)
    (pick : Nat → Nat) :
    (movement_gate ops new_odom cur = true ↔
      (d_thresh < |new_odom.1 - cur.1| ∨ d_thresh < |new_odom.2.1 - cur.2.1|
        ∨ a_thresh ops < |new_odom.2.2 - cur.2.2|))
    ∧ (st.particle_cloud ≠ [] → st.current_odom = some cur →
        movement_gate ops new_odom cur = false →
        scan_received ops F nanv st ranges new_odom randI noiseR noiseM
          noiseO pick = st)
    ∧ (st.particle_cloud ≠ [] → st.current_odom = some cur →
        movement_gate ops new_odom cur = true →
        (scan_received ops F nanv st ranges new_odom randI noiseR noiseM
          noiseO pick).current_odom = some new_odom) := by
  have hemp : st.particle_cloud ≠ [] → st.particle_cloud.isEmpty = false := by
    intro hne
    rcases h : st.particle_cloud with _ | ⟨a, t⟩
    · exact absurd h hne
    · rfl
  refine ⟨?_, ?_, ?_⟩
  · simp [movement_gate, Bool.or_eq_true, decide_eq_true_eq, or_assoc]
  · intro hne hodom hgate
    simp only [scan_received, hemp hne, Bool.false_eq_true, if_false, hodom,
      hgate]
  · intro hne hodom hgate
    simp only [scan_received, hemp hne, Bool.false_eq_true, if_false, hodom,
      hgate, if_true, update_particles_with_odom]

/-- Witness for the amended claim C4 theorem: a one-particle state with
baseline `(0,0,0)` and new odometry `(1,0,0)` fires the gate and records
the new baseline. -/
theorem scan_gate_componentwise_witness :
    movement_gate qOps ((1 : ℚ), 0, 0) (0, 0, 0) = true
    ∧ ((⟨[⟨0, 0, 0, 1⟩], (0, 0, 0), some (0, 0, 0)⟩ : PFState ℚ).particle_cloud
        ≠ [])
    ∧ (scan_received qOps ⟨⟨1, 1, 1, 0, 0⟩, fun _ => 0⟩ 0
        (⟨[⟨0, 0, 0, 1⟩], (0, 0, 0), some (0, 0, 0)⟩ : PFState ℚ) [] (1, 0, 0)
        (fun _ => 0) (fun _ => 0) (fun _ => 0) (fun _ => 0)
        (fun i => i)).current_odom = some (1, 0, 0) := by
  have hg : movement_gate qOps ((1 : ℚ), 0, 0) (0, 0, 0) = true := by
    simp only [movement_gate, Bool.or_eq_true, decide_eq_true_eq]
    left
    rw [d_thresh, sub_zero, abs_of_pos] <;> norm_num
  exact ⟨hg, by simp,
    (scan_gate_componentwise qOps ⟨⟨1, 1, 1, 0, 0⟩, fun _ => 0⟩ 0
      ⟨[⟨0, 0, 0, 1⟩], (0, 0, 0), some (0, 0, 0)⟩ [] (1, 0, 0) (0, 0, 0)
      (fun _ => 0) (fun _ => 0) (fun _ => 0) (fun _ => 0) (fun i => i)).2.2
      (by simp) rfl hg⟩

/-- A poisoned (`nan`) accumulator stays poisoned through one laser
step. -/
theorem laser_step_absorbs_none [FloorRing α] (ops : MathOps α)
    (F : OccupancyField α) (valid : List (Nat × α)) (p : Particle α)
    (i : Nat) : laser_step ops F valid p none i = none := by
  rcases h : beam_query ops F valid p i with _ | d <;> simp [laser_step, h]

/-- A poisoned (`nan`) accumulator stays poisoned through the whole
beam product. -/
theorem foldl_laser_step_none [FloorRing α] (ops : MathOps α)
    (F : OccupancyField α) (valid : List (Nat × α)) (p : Particle α) :
    ∀ l : List Nat, l.foldl (laser_step ops F valid p) none = none := by
  intro l
  induction l with
  | nil => rfl
  | cons i t ih =>
    rw [List.foldl_cons, laser_step_absorbs_none]
    exact ih

/-- A `filterMap` that hits `some` on every element of the list is a
`map`. -/
theorem filterMap_eq_map_of_forall_some {β γ : Type} (f : β → Option γ)
    (g : β → γ) :
    ∀ l : List β, (∀ b ∈ l, f b = some (g b)) → l.filterMap f = l.map g := by
  intro l
  induction l with
  | nil => intro _; rfl
  | cons a t ih =>
    intro h
    rw [List.filterMap_cons_some (h a (List.mem_cons_self a t)), List.map_cons]
    exact congrArg _ (ih (fun b hb => h b (List.mem_cons_of_mem a hb)))

/-- `get?` on a replicated scan of range value 3. -/
theorem get?_replicate_three :
    ∀ n i : Nat, i < n → (List.replicate n (3 : ℝ)).get? i = some 3 := by
  intro n
  induction n with
  | zero => intro i h; exact absurd h (Nat.not_lt_zero i)
  | succ m ih =>
    intro i h
    cases i with
    | zero => rfl
    | succ j => exact ih j (Nat.lt_of_succ_lt_succ h)

/-- `filter_laser` keeps a scan of 25 readings of 3 meters in full:
every reading satisfies `0 < 3 < 3.5`. -/
theorem filter_laser_replicate_three (n : Nat) :
    filter_laser (List.replicate n (3 : ℝ))
      = (List.range n).map (fun i => (i, (3 : ℝ))) := by
  rw [filter_laser, List.length_replicate]
  apply filterMap_eq_map_of_forall_some
  intro i hi
  rw [List.mem_range] at hi
  rw [get?_replicate_three n i hi]
  norm_num

/-- On a 2-by-2 map with resolution 1 and origin `(0,0)`, the first
selected beam of a 25-reading scan of 3 meters (beam index 0, laser
angle `0 + TAU/4 = pi/2`) projected from the particle at the origin
lands at `(0, 3)`, outside the map: the occupancy query returns the
`nan` sentinel. -/
theorem beam_query_zero_out_of_map :
    beam_query realOps (⟨⟨2, 2, 1, 0, 0⟩, fun _ => 0⟩ : OccupancyField ℝ)
      ((List.range 25).map (fun i => (i, (3 : ℝ)))) ⟨0, 0, 0, 1⟩ 0 = none := by
  have hpair : ((List.range 25).map (fun i => (i, (3 : ℝ)))).getD
      (0 * ((List.range 25).map (fun i => (i, (3 : ℝ)))).length / 25)
      ((0 : ℕ), (0 : ℝ)) = ((0 : ℕ), (3 : ℝ)) := by
    rw [Nat.zero_mul, Nat.zero_div, List.getD_eq_getElem _ _ (by simp)]
    simp
  have hangle : pymod (((0 : ℕ) : ℝ) + (1 / 4) * TAU realOps) (TAU realOps)
      = Real.pi / 2 := by
    have htau : TAU realOps = 2 * Real.pi := rfl
    have hA : (((0 : ℕ) : ℝ) + (1 / 4) * (2 * Real.pi)) = Real.pi / 2 := by
      push_cast
      ring
    rw [htau, hA, pymod]
    have hdiv : Real.pi / 2 / (2 * Real.pi) = 1 / 4 := by
      field_simp
      ring
    rw [hdiv]
    norm_num
  have hcos : realOps.cos (Real.pi / 2 + (0 : ℝ)) = 0 := by
    simp [realOps]
  have hsin : realOps.sin (Real.pi / 2 + (0 : ℝ)) = 1 := by
    simp [realOps]
  simp only [beam_query, hpair, hangle, hcos, hsin]
  norm_num [get_closest_obstacle_distance, pyInt]

/-- Claim C5, counterexample.  A scan with exactly 25 valid readings,
all of range 3 meters, weighted against a 2-by-2-cell map (resolution 1,
origin `(0,0)`) for the particle at the origin: the very first selected
beam projects to `(0, 3)`, outside the map, its queried distance is the
`nan` sentinel, `norm.pdf(nan)` is `nan`, and the multiplicative
`(1 + density)` product — the weight the claim asserts to be strictly
positive even for out-of-map beams — is `nan` (`none`), not a strictly
positive real. -/
theorem laser_weight_nan_from_out_of_map_beam :
    (filter_laser (List.replicate 25 (3 : ℝ))).length = 25
    ∧ laser_particle_weight realOps
        (⟨⟨2, 2, 1, 0, 0⟩, fun _ => 0⟩ : OccupancyField ℝ)
        (filter_laser (List.replicate 25 (3 : ℝ))) ⟨0, 0, 0, 1⟩ = none := by
  rw [filter_laser_replicate_three]
  refine ⟨by simp, ?_⟩
  rw [laser_particle_weight]
  have h25 : List.range 25 = 0 :: (List.range 24).map Nat.succ := by
    rw [show (25 : ℕ) = 24 + 1 by norm_num, List.range_succ_eq_map]
  set V := (List.range 25).map (fun i => (i, (3 : ℝ))) with hV
  rw [h25, List.foldl_cons]
  have hstep : laser_step realOps
      (⟨⟨2, 2, 1, 0, 0⟩, fun _ => 0⟩ : OccupancyField ℝ) V ⟨0, 0, 0, 1⟩
      (some 1) 0 = none := by
    rw [hV]
    simp [laser_step, beam_query_zero_out_of_map]
  rw [hstep]
  exact foldl_laser_step_none _ _ _ _ _

/-- Claim C5, amended.  Whenever every one of the 25 selected beams
queries an in-map distance (`isSome`), the weight
`update_particles_with_laser` computes for a particle is a genuine
value at least 1 — strictly positive, and in particular never exactly
zero — because every factor `1 + density` is at least 1 for the
non-negative Gaussian density.  (When some selected beam's endpoint
falls outside the map, the weight is the propagated `nan` instead, as
the counterexample shows.) -/
theorem laser_weight_strictly_positive [FloorRing α] (ops : MathOps α)
    (F : OccupancyField α) (valid : List (Nat × α)) (p : Particle α)
    (hin : ∀ i, i < 25 → (beam_query ops F valid p i).isSome = true)
    (hpdf : ∀ x : α, 0 ≤ ops.normPdf x) :
    ∃ w, laser_particle_weight ops F valid p = some w ∧ 1 ≤ w := by
  have key : ∀ l : List Nat,
      (∀ i ∈ l, (beam_query ops F valid p i).isSome = true) →
      ∀ a : α, 1 ≤ a →
      ∃ w, l.foldl (laser_step ops F valid p) (some a) = some w ∧ 1 ≤ w := by
    intro l
    induction l with
    | nil => exact fun _ a ha => ⟨a, rfl, ha⟩
    | cons i t ih =>
      intro h a ha
      obtain ⟨d, hd⟩ :=
        Option.isSome_iff_exists.mp (h i (List.mem_cons_self i t))
      have hstep : laser_step ops F valid p (some a) i
          = some (a * (1 + ops.normPdf d)) := by
        simp [laser_step, hd]
      rw [List.foldl_cons, hstep]
      apply ih (fun j hj => h j (List.mem_cons_of_mem i hj))
      calc (1 : α) ≤ a := ha
        _ = a * 1 := (mul_one a).symm
        _ ≤ a * (1 + ops.normPdf d) := by
            apply mul_le_mul_of_nonneg_left
            · exact le_add_of_nonneg_right (hpdf d)
            · exact le_trans zero_le_one ha
  rw [laser_particle_weight]
  exact key (List.range 25) (fun i hi => hin i (List.mem_range.mp hi)) 1 le_rfl

/-- Witness for the amended claim C5 theorem: on a 1-by-1 map with the
particle at the origin, a valid-range table of 25 entries `(0, 1)` and
the rational test operations, every beam queries in-map and the
resulting weight is a value at least 1. -/
theorem laser_weight_strictly_positive_witness :
    (∀ i, i < 25 →
      (beam_query qOps (⟨⟨1, 1, 1, 0, 0⟩, fun _ => 0⟩ : OccupancyField ℚ)
        (List.replicate 25 ((0 : ℕ), (1 : ℚ))) ⟨0, 0, 0, 1⟩ i).isSome = true)
    ∧ (∀ x : ℚ, 0 ≤ qOps.normPdf x)
    ∧ ∃ w, laser_particle_weight qOps
        (⟨⟨1, 1, 1, 0, 0⟩, fun _ => 0⟩ : OccupancyField ℚ)
        (List.replicate 25 ((0 : ℕ), (1 : ℚ))) ⟨0, 0, 0, 1⟩ = some w ∧ 1 ≤ w := by
  have hin : ∀ i, i < 25 →
      (beam_query qOps (⟨⟨1, 1, 1, 0, 0⟩, fun _ => 0⟩ : OccupancyField ℚ)
        (List.replicate 25 ((0 : ℕ), (1 : ℚ))) ⟨0, 0, 0, 1⟩ i).isSome = true := by
    intro i hi
    have hpair : (List.replicate 25 ((0 : ℕ), (1 : ℚ))).getD
        (i * (List.replicate 25 ((0 : ℕ), (1 : ℚ))).length / 25)
        ((0 : ℕ), (0 : ℚ)) = ((0 : ℕ), (1 : ℚ)) := by
      rw [List.length_replicate, Nat.mul_div_cancel i (by norm_num),
        List.getD_eq_getElem _ _ (by simpa using hi)]
      exact List.getElem_replicate _ _
    simp only [beam_query, hpair, qOps]
    norm_num [get_closest_obstacle_distance, pyInt]
  exact ⟨hin, fun x => le_refl 0,
    laser_weight_strictly_positive qOps
      ⟨⟨1, 1, 1, 0, 0⟩, fun _ => 0⟩ (List.replicate 25 ((0 : ℕ), (1 : ℚ)))
      ⟨0, 0, 0, 1⟩ hin (fun x => le_refl 0)⟩

end PF

